import Mathlib

/-!
Shallow embedding of the `mtm` repository (a deterministic k-tape Turing
machine simulator) and verification of its specification claims.

Source files embedded:
  - src/mtm/tape.py    : class Tape (sparse cell dictionary, head, read/write/move)
  - src/mtm/machine.py : class MultiTapeTuringMachine (step, run, reset, init)

Modelling conventions:
  - Python str symbols become Lean String; a tape initial-input string is
    modelled as the list of its one-character symbols (the Python constructor
    iterates the string character by character).
  - A Python dict with int keys becomes an association list with unique keys;
    dictGet / dictInsert / dictErase mirror dict get / setitem / delitem
    (setitem on an existing key updates in place, otherwise appends, exactly
    as insertion-ordered dicts behave).
  - Python in-place mutation becomes explicit state passing: every method
    returns the updated object.  reset, which can raise ValueError, returns
    the Except outcome together with the object as left by the call (the
    source validates before mutating, so on error the object is unchanged).
  - The run method is a while loop guarded by status == RUNNING and
    step_count < max_steps; step returns RUNNING only after incrementing
    step_count by one, so the loop performs at most max_steps - step_count
    iterations.  runAux uses that quantity as structural fuel, and returns
    RUNNING when the guard step_count < max_steps fails, exactly as the loop.
-/

/-- The four execution statuses returned by step and run, with the exact
vocabulary of the source: RUNNING, ACCEPT, REJECT, HALT. -/
inductive Status where
  | RUNNING
  | ACCEPT
  | REJECT
  | HALT
deriving DecidableEq, Repr

/-- Python dict get with default: first value bound to the key, else dflt. -/
def dictGet (d : List (Int × String)) (k : Int) (dflt : String) : String :=
  (d.lookup k).getD dflt

/-- Python dict setitem: update the value in place if the key is present,
otherwise append the new binding (insertion order preserved). -/
def dictInsert (d : List (Int × String)) (k : Int) (v : String) : List (Int × String) :=
  if (d.lookup k).isSome then
    d.map (fun p => if p.1 = k then (k, v) else p)
  else
    d ++ [(k, v)]

/-- Python dict delitem restricted to the given key. -/
def dictErase (d : List (Int × String)) (k : Int) : List (Int × String) :=
  d.filter (fun p => p.1 ≠ k)

/-- Tape: one infinite bidirectional track.  cells is the sparse
position-to-symbol dictionary, head the current position. -/
structure Tape where
  blank : String
  cells : List (Int × String)
  head : Int
deriving DecidableEq, Repr

/-- Tape.__init__: store every character of the initial input at positions
0, 1, 2, ..., head at 0.  (The Python loop inserts distinct fresh keys into
an empty dict in index order, which yields exactly this list.) -/
def Tape.init (blank : String) (initial_input : List String) : Tape :=
  { blank := blank
    cells := initial_input.enum.map (fun p => ((p.1 : Int), p.2))
    head := 0 }

/-- Tape.read: the symbol under the head, blank when no entry is stored. -/
def Tape.read (t : Tape) : String :=
  dictGet t.cells t.head t.blank

/-- Tape.write: the source deletes the entry only when the symbol is blank
AND an entry exists at the head; in every other case (including writing
blank at a position with no stored entry) it stores the symbol. -/
def Tape.write (t : Tape) (symbol : String) : Tape :=
  if symbol = t.blank ∧ (t.cells.lookup t.head).isSome then
    { t with cells := dictErase t.cells t.head }
  else
    { t with cells := dictInsert t.cells t.head symbol }

/-- Tape.move: head += direction, no bounds. -/
def Tape.move (t : Tape) (direction : Int) : Tape :=
  { t with head := t.head + direction }

/-- The sparsity invariant stated by the spec: no stored cell holds the
blank symbol. -/
def Tape.sparseOK (t : Tape) : Bool :=
  t.cells.all (fun c => c.2 != t.blank)

/-- Transition table: a dict from (state, read-symbol tuple) to
(new state, write-symbol tuple, move tuple). -/
abbrev Transitions :=
  List ((String × List String) × (String × List String × List Int))

/-- The k-tape Turing machine object: configuration sets, the transition
dict, and the mutable execution state (tapes, current_state, step_count). -/
structure MultiTapeTuringMachine where
  states : List String
  input_alphabet : List String
  tape_alphabet : List String
  blank : String
  transitions : Transitions
  start_state : String
  accept_states : List String
  reject_states : List String
  num_tapes : Nat
  tapes : List Tape
  current_state : String
  step_count : Nat
deriving DecidableEq, Repr

abbrev Machine := MultiTapeTuringMachine

/-- MultiTapeTuringMachine.__init__: defaults initial_inputs to num_tapes
empty strings, raises ValueError on a length mismatch, otherwise builds one
fresh tape per lane, current_state = start_state and step_count = 0. -/
def MultiTapeTuringMachine.init
    (states input_alphabet tape_alphabet : List String) (blank : String)
    (transitions : Transitions) (start_state : String)
    (accept_states : List String) (reject_states : Option (List String))
    (num_tapes : Nat) (initial_inputs : Option (List (List String))) :
    Except String Machine :=
  let inputs := initial_inputs.getD (List.replicate num_tapes [])
  if inputs.length ≠ num_tapes then
    Except.error "initial_inputs debe tener longitud num_tapes."
  else
    Except.ok
      { states := states
        input_alphabet := input_alphabet
        tape_alphabet := tape_alphabet
        blank := blank
        transitions := transitions
        start_state := start_state
        accept_states := accept_states
        reject_states := reject_states.getD []
        num_tapes := num_tapes
        tapes := inputs.map (Tape.init blank)
        current_state := start_state
        step_count := 0 }

/-- MultiTapeTuringMachine.reset: same length validation as construction;
ValueError leaves the machine exactly as it was (the source validates
before any mutation), success replaces the tapes wholesale and resets
current_state and step_count. -/
def MultiTapeTuringMachine.reset (M : Machine)
    (initial_inputs : Option (List (List String))) :
    Except String Unit × Machine :=
  let inputs := initial_inputs.getD (List.replicate M.num_tapes [])
  if inputs.length ≠ M.num_tapes then
    (Except.error "initial_inputs debe tener longitud num_tapes.", M)
  else
    (Except.ok (),
      { M with
        tapes := inputs.map (Tape.init M.blank)
        current_state := M.start_state
        step_count := 0 })

/-- The transition-lookup key of step: (current_state, tuple of the symbols
read from the tapes, in tape order). -/
def MultiTapeTuringMachine.readKey (M : Machine) : String × List String :=
  (M.current_state, M.tapes.map Tape.read)

/-- The write loop of step: `for t, sym in zip(self.tapes, write_symbols)`.
zip pairs positionally and stops at the shorter sequence, so tapes beyond
the write tuple are left as they are, and surplus symbols are dropped. -/
def writeTapes : List Tape → List String → List Tape
  | t :: ts, s :: ss => t.write s :: writeTapes ts ss
  | ts, [] => ts
  | [], _ :: _ => []

/-- The move loop of step: `for t, mv in zip(self.tapes, moves)`, with the
same truncating zip semantics as the write loop. -/
def moveTapes : List Tape → List Int → List Tape
  | t :: ts, m :: ms => t.move m :: moveTapes ts ms
  | ts, [] => ts
  | [], _ :: _ => []

/-- The mutation performed by step when a transition is found: write every
paired tape, then move every paired head, then set current_state and
increment step_count. -/
def MultiTapeTuringMachine.applyTrans (M : Machine) (new_state : String)
    (write_symbols : List String) (moves : List Int) : Machine :=
  { M with
    tapes := moveTapes (writeTapes M.tapes write_symbols) moves
    current_state := new_state
    step_count := M.step_count + 1 }

/-- MultiTapeTuringMachine.step.  When the key is absent the machine is
returned untouched with ACCEPT / REJECT / HALT decided on the current
state (acceptance checked first); when present, the transition is applied
and ACCEPT / REJECT / RUNNING is decided on the new state. -/
def MultiTapeTuringMachine.step (M : Machine) : Status × Machine :=
  match M.transitions.lookup M.readKey with
  | none =>
      (if M.current_state ∈ M.accept_states then Status.ACCEPT
       else if M.current_state ∈ M.reject_states then Status.REJECT
       else Status.HALT, M)
  | some (new_state, write_symbols, moves) =>
      (if new_state ∈ M.accept_states then Status.ACCEPT
       else if new_state ∈ M.reject_states then Status.REJECT
       else Status.RUNNING, M.applyTrans new_state write_symbols moves)

/-- The while loop of run, with explicit fuel.  The guard mirrors the
source exactly: keep stepping while the previous status is RUNNING (the
match) and step_count < max_steps (the if); when the count guard fails the
loop exits with the RUNNING it entered with. -/
def runAux (maxSteps : Nat) : Nat → Machine → Status × Machine
  | 0, M => (Status.RUNNING, M)
  | fuel + 1, M =>
      if M.step_count < maxSteps then
        if (M.step).1 = Status.RUNNING then runAux maxSteps fuel (M.step).2
        else M.step
      else
        (Status.RUNNING, M)

/-- MultiTapeTuringMachine.run: each iteration that continues the loop
returns RUNNING, which happens only after step_count is incremented, so the
loop runs at most max_steps - step_count times; that bound is the fuel.
At fuel 0 the guard step_count < max_steps is false, so returning RUNNING
there coincides with the loop exit. -/
def MultiTapeTuringMachine.run (M : Machine) (maxSteps : Nat) : Status × Machine :=
  runAux maxSteps (maxSteps - M.step_count) M

/-- k-fold iteration of step, keeping only the machine. -/
def MultiTapeTuringMachine.iter (M : Machine) : Nat → Machine
  | 0 => M
  | k + 1 => ((M.iter k).step).2

/-- The machine of spec scenario 1: single tape, alphabet {1,_}, sole state
q0 that is start and the only accept state, one transition moving right
over 1, initial input 111.  Equals the result of MultiTapeTuringMachine.init
on those arguments. -/
def mtmSucc : Machine :=
  { states := ["q0"]
    input_alphabet := ["1"]
    tape_alphabet := ["1", "_"]
    blank := "_"
    transitions := [(("q0", ["1"]), ("q0", ["1"], [(1 : Int)]))]
    start_state := "q0"
    accept_states := ["q0"]
    reject_states := []
    num_tapes := 1
    tapes := [Tape.init "_" ["1", "1", "1"]]
    current_state := "q0"
    step_count := 0 }

/-- A machine with an empty transition table whose start state is in
neither accept_states nor reject_states (spec scenario 3). -/
def mtmStuck : Machine :=
  { states := ["s0", "qa", "qr"]
    input_alphabet := ["1"]
    tape_alphabet := ["1", "_"]
    blank := "_"
    transitions := []
    start_state := "s0"
    accept_states := ["qa"]
    reject_states := ["qr"]
    num_tapes := 1
    tapes := [Tape.init "_" []]
    current_state := "s0"
    step_count := 0 }

/-- An infinite-loop machine: a single state looping in place on reading 1,
neither accepting nor rejecting (spec scenario 5). -/
def mtmLoop : Machine :=
  { states := ["a"]
    input_alphabet := ["1"]
    tape_alphabet := ["1", "_"]
    blank := "_"
    transitions := [(("a", ["1"]), ("a", ["1"], [(0 : Int)]))]
    start_state := "a"
    accept_states := []
    reject_states := []
    num_tapes := 1
    tapes := [Tape.init "_" ["1"]]
    current_state := "a"
    step_count := 0 }

/-- A machine sitting, with no applicable transition, in a state that is a
member of both accept_states and reject_states. -/
def mtmBothStuck : Machine :=
  { states := ["s"]
    input_alphabet := ["1"]
    tape_alphabet := ["1", "_"]
    blank := "_"
    transitions := []
    start_state := "s"
    accept_states := ["s"]
    reject_states := ["s"]
    num_tapes := 1
    tapes := [Tape.init "_" []]
    current_state := "s"
    step_count := 0 }

/-- A machine whose single applicable transition leads into a state that is
a member of both accept_states and reject_states. -/
def mtmBothEnter : Machine :=
  { states := ["t", "s"]
    input_alphabet := ["x"]
    tape_alphabet := ["x", "_"]
    blank := "_"
    transitions := [(("t", ["_"]), ("s", ["x"], [(0 : Int)]))]
    start_state := "t"
    accept_states := ["s"]
    reject_states := ["s"]
    num_tapes := 1
    tapes := [Tape.init "_" []]
    current_state := "t"
    step_count := 0 }

/-- A two-tape machine whose single transition carries write and move
tuples of length one only, shorter than num_tapes. -/
def mtmShort : Machine :=
  { states := ["p", "q"]
    input_alphabet := ["a"]
    tape_alphabet := ["a", "b", "_"]
    blank := "_"
    transitions := [(("p", ["a", "_"]), ("q", ["b"], [(1 : Int)]))]
    start_state := "p"
    accept_states := []
    reject_states := []
    num_tapes := 2
    tapes := [Tape.init "_" ["a"], Tape.init "_" []]
    current_state := "p"
    step_count := 0 }

/-! ## Helper lemmas -/

/-- step returns RUNNING only out of the applied-transition branch, which
increments step_count by exactly one. -/
theorem step_count_of_running (M : Machine)
    (h : (M.step).1 = Status.RUNNING) :
    (M.step).2.step_count = M.step_count + 1 := by
  cases hk : M.transitions.lookup M.readKey with
  | none =>
      exfalso
      simp only [MultiTapeTuringMachine.step, hk] at h
      split at h
      · exact Status.noConfusion h
      split at h
      · exact Status.noConfusion h
      · exact Status.noConfusion h
  | some v =>
      obtain ⟨ns, ws, mvs⟩ := v
      simp only [MultiTapeTuringMachine.step, hk]
      rfl

/-- Iterating step once more at the front or at the back is the same. -/
theorem iter_step_shift (M : Machine) (k : Nat) :
    ((M.step).2).iter k = M.iter (k + 1) := by
  induction k with
  | zero => rfl
  | succ k ih =>
      show (((M.step).2.iter k).step).2 = _
      rw [ih]
      rfl

/-- The run loop on a machine whose every reachable step keeps RUNNING:
with fuel equal to the remaining budget, it exits with RUNNING exactly when
step_count reaches maxSteps. -/
theorem runAux_budget (N : Nat) : ∀ (fuel : Nat) (M : Machine),
    (∀ k, ((M.iter k).step).1 = Status.RUNNING) →
    M.step_count + fuel = N →
    (runAux N fuel M).1 = Status.RUNNING ∧ (runAux N fuel M).2.step_count = N := by
  intro fuel
  induction fuel with
  | zero =>
      intro M hrun hcount
      constructor
      · rfl
      · show M.step_count = N
        omega
  | succ fuel ih =>
      intro M hrun hcount
      have h0 : (M.step).1 = Status.RUNNING := hrun 0
      have hcnt : (M.step).2.step_count = M.step_count + 1 := step_count_of_running M h0
      have hlt : M.step_count < N := by omega
      have hrun2 : ∀ k, (((M.step).2.iter k).step).1 = Status.RUNNING := by
        intro k
        rw [iter_step_shift]
        exact hrun (k + 1)
      have hres := ih (M.step).2 hrun2 (by omega)
      simpa [runAux, hlt, h0] using hres

/-- Writing never moves the head. -/
theorem Tape.write_head (t : Tape) (s : String) : (t.write s).head = t.head := by
  unfold Tape.write
  split <;> rfl

/-- Moving never touches the stored cells. -/
theorem Tape.move_cells (t : Tape) (m : Int) : (t.move m).cells = t.cells := rfl

/-- The write loop keeps the number of tapes. -/
theorem writeTapes_length : ∀ (ts : List Tape) (ss : List String),
    (writeTapes ts ss).length = ts.length := by
  intro ts
  induction ts with
  | nil => intro ss; cases ss <;> rfl
  | cons t ts ih =>
      intro ss
      cases ss with
      | nil => rfl
      | cons s ss => simp [writeTapes, ih]

/-- The move loop keeps the number of tapes. -/
theorem moveTapes_length : ∀ (ts : List Tape) (ms : List Int),
    (moveTapes ts ms).length = ts.length := by
  intro ts
  induction ts with
  | nil => intro ms; cases ms <;> rfl
  | cons t ts ih =>
      intro ms
      cases ms with
      | nil => rfl
      | cons m ms => simp [moveTapes, ih]

/-- Tapes past the end of the write tuple are left untouched by the write
loop. -/
theorem writeTapes_getElem_ge : ∀ (ts : List Tape) (ss : List String) (i : Nat),
    ss.length ≤ i → (writeTapes ts ss)[i]? = ts[i]? := by
  intro ts
  induction ts with
  | nil => intro ss i _; cases ss <;> rfl
  | cons t ts ih =>
      intro ss i hle
      cases ss with
      | nil => rfl
      | cons s ss =>
          cases i with
          | zero => simp at hle
          | succ j =>
              simp only [writeTapes, List.getElem?_cons_succ]
              exact ih ss j (by simpa using hle)

/-- Tapes past the end of the move tuple are left untouched by the move
loop. -/
theorem moveTapes_getElem_ge : ∀ (ts : List Tape) (ms : List Int) (i : Nat),
    ms.length ≤ i → (moveTapes ts ms)[i]? = ts[i]? := by
  intro ts
  induction ts with
  | nil => intro ms i _; cases ms <;> rfl
  | cons t ts ih =>
      intro ms i hle
      cases ms with
      | nil => rfl
      | cons m ms =>
          cases i with
          | zero => simp at hle
          | succ j =>
              simp only [moveTapes, List.getElem?_cons_succ]
              exact ih ms j (by simpa using hle)

/-- The move loop changes no cell contents anywhere. -/
theorem moveTapes_getElem_cells : ∀ (ts : List Tape) (ms : List Int) (i : Nat),
    ((moveTapes ts ms)[i]?).map Tape.cells = (ts[i]?).map Tape.cells := by
  intro ts
  induction ts with
  | nil => intro ms i; cases ms <;> rfl
  | cons t ts ih =>
      intro ms i
      cases ms with
      | nil => rfl
      | cons m ms =>
          cases i with
          | zero => simp [moveTapes, Tape.move_cells]
          | succ j =>
              simp only [moveTapes, List.getElem?_cons_succ]
              exact ih ms j

/-- The write loop moves no head anywhere. -/
theorem writeTapes_getElem_head : ∀ (ts : List Tape) (ss : List String) (i : Nat),
    ((writeTapes ts ss)[i]?).map Tape.head = (ts[i]?).map Tape.head := by
  intro ts
  induction ts with
  | nil => intro ss i; cases ss <;> rfl
  | cons t ts ih =>
      intro ss i
      cases ss with
      | nil => rfl
      | cons s ss =>
          cases i with
          | zero => simp [writeTapes, Tape.write_head]
          | succ j =>
              simp only [writeTapes, List.getElem?_cons_succ]
              exact ih ss j

/-! ## Claim theorems -/

/-- Claim C1, as stated, is false: on the unary-successor machine of spec
scenario 1 (input 111, max_steps 10), run does return ACCEPT but with
step_count 1, not 3, because step re-checks the new state after every
applied transition and q0 is an accept state. -/
theorem C1_run_succ_step_count_ne_three :
    ¬ ((mtmSucc.run 10).1 = Status.ACCEPT ∧ (mtmSucc.run 10).2.step_count = 3) := by
  decide

/-- Claim C1 amended: on the unary-successor machine with input 111 and
max_steps 10, run returns ACCEPT and leaves step_count equal to 1 (the
first applied transition already lands in the accept state q0, which the
post-transition check of step turns into ACCEPT). -/
theorem C1_run_succ_accepts_after_one :
    (mtmSucc.run 10).1 = Status.ACCEPT ∧ (mtmSucc.run 10).2.step_count = 1 := by
  decide

/-- Claim C2 fails on the code: writing the blank at a position with no
stored entry falls into the else branch of Tape.write and stores the
blank, so the sparse-map invariant claimed by the spec (and by the Tape
docstrings) is violated.  The failing input: a fresh all-blank tape with
blank _ on which write("_") is called. -/
theorem C2_write_blank_stores_blank :
    ((Tape.init "_" []).write "_").cells = [((0 : Int), "_")] ∧
    ((Tape.init "_" []).write "_").sparseOK = false ∧
    (Tape.init "_" ["_"]).sparseOK = false := by
  refine ⟨rfl, rfl, rfl⟩

/-- Claim C3: whenever the lookup key (current_state, read symbols) is
absent from transitions, step returns ACCEPT if the current state is
accepting, else REJECT if rejecting, else HALT, and returns the machine
itself, completely unmutated (same current_state, step_count, tapes). -/
theorem C3_step_undefined_transition (M : Machine)
    (h : M.transitions.lookup M.readKey = none) :
    M.step = (if M.current_state ∈ M.accept_states then Status.ACCEPT
              else if M.current_state ∈ M.reject_states then Status.REJECT
              else Status.HALT, M) := by
  simp [MultiTapeTuringMachine.step, h]

/-- Witness for C3: the empty-transition machine of spec scenario 3 halts
with HALT and is returned unchanged. -/
theorem C3_step_undefined_transition_witness :
    mtmStuck.transitions.lookup mtmStuck.readKey = none ∧
    mtmStuck.step = (Status.HALT, mtmStuck) := by
  constructor
  · decide
  · rw [C3_step_undefined_transition mtmStuck (by decide)]
    decide

/-- Claim C4: a freshly constructed machine (step_count 0) all of whose
reachable steps return RUNNING exhausts any budget N exactly: run N
returns RUNNING with step_count N. -/
theorem C4_run_budget_exact (M : Machine) (N : Nat)
    (h0 : M.step_count = 0)
    (hrun : ∀ k, ((M.iter k).step).1 = Status.RUNNING) :
    (M.run N).1 = Status.RUNNING ∧ (M.run N).2.step_count = N := by
  have hres := runAux_budget N N M hrun (by omega)
  simpa [MultiTapeTuringMachine.run, h0] using hres

/-- Every iterate of the infinite-loop machine differs from it only in
step_count. -/
theorem mtmLoop_iter_eq (k : Nat) :
    mtmLoop.iter k = { mtmLoop with step_count := k } := by
  induction k with
  | zero => rfl
  | succ k ih =>
      show ((mtmLoop.iter k).step).2 = _
      rw [ih]
      rfl

/-- The infinite-loop machine keeps returning RUNNING from every reachable
configuration. -/
theorem mtmLoop_always_running (k : Nat) :
    ((mtmLoop.iter k).step).1 = Status.RUNNING := by
  rw [mtmLoop_iter_eq]
  rfl

/-- Witness for C4: the self-looping machine of spec scenario 5 run with
max_steps 5 returns RUNNING with step_count exactly 5. -/
theorem C4_run_budget_exact_witness :
    (mtmLoop.run 5).1 = Status.RUNNING ∧ (mtmLoop.run 5).2.step_count = 5 :=
  C4_run_budget_exact mtmLoop 5 rfl mtmLoop_always_running

/-- Claim C5: for a state s in both accept_states and reject_states,
acceptance wins in both branches of step: with no applicable transition
and current_state = s, step reports ACCEPT; with an applicable transition
into s, step reports ACCEPT. -/
theorem C5_step_accept_precedence (M : Machine) (s : String)
    (hacc : s ∈ M.accept_states) (_hrej : s ∈ M.reject_states) :
    (M.transitions.lookup M.readKey = none → M.current_state = s →
        (M.step).1 = Status.ACCEPT) ∧
    (∀ ws mvs, M.transitions.lookup M.readKey = some (s, ws, mvs) →
        (M.step).1 = Status.ACCEPT) := by
  constructor
  · intro hnone hcur
    simp [MultiTapeTuringMachine.step, hnone, hcur, hacc]
  · intro ws mvs hsome
    simp [MultiTapeTuringMachine.step, hsome, hacc]

/-- Witness for C5: one machine stuck in a state in both sets, one machine
transitioning into a state in both sets; both report ACCEPT. -/
theorem C5_step_accept_precedence_witness :
    (mtmBothStuck.step).1 = Status.ACCEPT ∧ (mtmBothEnter.step).1 = Status.ACCEPT := by
  constructor
  · exact (C5_step_accept_precedence mtmBothStuck "s" (by decide) (by decide)).1
      (by decide) (by decide)
  · exact (C5_step_accept_precedence mtmBothEnter "s" (by decide) (by decide)).2
      ["x"] [(0 : Int)] (by decide)

/-- Claim C6: reset with a well-sized input sequence succeeds and produces
exactly the machine with fresh tapes built from the inputs, current_state
back at start_state and step_count 0; the record update shows every other
field (states, alphabets, blank, transitions, start_state, accept_states,
reject_states, num_tapes) is left unchanged. -/
theorem C6_reset_reinitializes (M : Machine) (inputs : List (List String))
    (h : inputs.length = M.num_tapes) :
    M.reset (some inputs) =
      (Except.ok (),
        { M with
          tapes := inputs.map (Tape.init M.blank)
          current_state := M.start_state
          step_count := 0 }) := by
  simp [MultiTapeTuringMachine.reset, h]

/-- Witness for C6: resetting the successor machine mid-configuration data
with a fresh one-symbol input rebuilds it from that input. -/
theorem C6_reset_reinitializes_witness :
    mtmSucc.reset (some [["1"]]) =
      (Except.ok (),
        { mtmSucc with
          tapes := [["1"]].map (Tape.init mtmSucc.blank)
          current_state := mtmSucc.start_state
          step_count := 0 }) :=
  C6_reset_reinitializes mtmSucc [["1"]] (by decide)

/-- Claim C7: an initial_inputs sequence whose length is not num_tapes
makes construction return the configuration error and reset report the
same error; neither truncates or pads. -/
theorem C7_length_validation
    (states ia ta : List String) (blank : String) (trans : Transitions)
    (start : String) (acc : List String) (rej : Option (List String))
    (M : Machine) (inputs : List (List String))
    (hlen : inputs.length ≠ M.num_tapes) :
    MultiTapeTuringMachine.init states ia ta blank trans start acc rej
        M.num_tapes (some inputs) =
      Except.error "initial_inputs debe tener longitud num_tapes." ∧
    (M.reset (some inputs)).1 =
      Except.error "initial_inputs debe tener longitud num_tapes." := by
  constructor
  · simp [MultiTapeTuringMachine.init, hlen]
  · simp [MultiTapeTuringMachine.reset, hlen]

/-- Witness for C7: an empty input sequence against one tape is rejected
by construction and by reset. -/
theorem C7_length_validation_witness :
    MultiTapeTuringMachine.init ["s0"] ["1"] ["1", "_"] "_" [] "s0" ["qa"] none
        mtmStuck.num_tapes (some []) =
      Except.error "initial_inputs debe tener longitud num_tapes." ∧
    (mtmStuck.reset (some [])).1 =
      Except.error "initial_inputs debe tener longitud num_tapes." :=
  C7_length_validation ["s0"] ["1"] ["1", "_"] "_" [] "s0" ["qa"] none
    mtmStuck [] (by decide)

/-- Claim C8: execution is deterministic across runs: two machines
produced by resetting the same machine with the same inputs yield, for
the same budget, the same final classification and the same final
step_count. -/
theorem C8_run_deterministic (M : Machine) (inputs : Option (List (List String)))
    (N : Nat) (M1 M2 : Machine)
    (h1 : M.reset inputs = (Except.ok (), M1))
    (h2 : M.reset inputs = (Except.ok (), M2)) :
    (M1.run N).1 = (M2.run N).1 ∧
    (M1.run N).2.step_count = (M2.run N).2.step_count := by
  have heq : M1 = M2 := congrArg Prod.snd (h1.symm.trans h2)
  subst heq
  exact ⟨rfl, rfl⟩

/-- Witness for C8: resetting the successor machine with its own input
reproduces it, and the two (identical) runs agree. -/
theorem C8_run_deterministic_witness :
    (mtmSucc.run 10).1 = (mtmSucc.run 10).1 ∧
    (mtmSucc.run 10).2.step_count = (mtmSucc.run 10).2.step_count :=
  C8_run_deterministic mtmSucc (some [["1", "1", "1"]]) 10 mtmSucc mtmSucc rfl rfl

/-- Claim C9: when the transition found has write or move tuples shorter
than the tape list, step is total and pairs positionally: it still sets
current_state and increments step_count, keeps the number of tapes, leaves
every tape beyond both tuples entirely untouched, leaves the cells of
every tape beyond the write tuple untouched and the head of every tape
beyond the move tuple untouched. -/
theorem C9_step_zip_truncation (M : Machine) (ns : String)
    (ws : List String) (mvs : List Int)
    (hfound : M.transitions.lookup M.readKey = some (ns, ws, mvs)) :
    (M.step).2.current_state = ns ∧
    (M.step).2.step_count = M.step_count + 1 ∧
    (M.step).2.tapes.length = M.tapes.length ∧
    (∀ i : Nat, ws.length ≤ i → mvs.length ≤ i →
        (M.step).2.tapes[i]? = M.tapes[i]?) ∧
    (∀ i : Nat, ws.length ≤ i →
        ((M.step).2.tapes[i]?).map Tape.cells = (M.tapes[i]?).map Tape.cells) ∧
    (∀ i : Nat, mvs.length ≤ i →
        ((M.step).2.tapes[i]?).map Tape.head = (M.tapes[i]?).map Tape.head) := by
  have h2 : (M.step).2 = M.applyTrans ns ws mvs := by
    simp [MultiTapeTuringMachine.step, hfound]
  rw [h2]
  refine ⟨rfl, rfl, ?_, ?_, ?_, ?_⟩
  · simp [MultiTapeTuringMachine.applyTrans, moveTapes_length, writeTapes_length]
  · intro i hw hm
    show (moveTapes (writeTapes M.tapes ws) mvs)[i]? = M.tapes[i]?
    rw [moveTapes_getElem_ge _ _ _ hm, writeTapes_getElem_ge _ _ _ hw]
  · intro i hw
    show ((moveTapes (writeTapes M.tapes ws) mvs)[i]?).map Tape.cells
        = (M.tapes[i]?).map Tape.cells
    rw [moveTapes_getElem_cells, writeTapes_getElem_ge _ _ _ hw]
  · intro i hm
    show ((moveTapes (writeTapes M.tapes ws) mvs)[i]?).map Tape.head
        = (M.tapes[i]?).map Tape.head
    rw [moveTapes_getElem_ge _ _ _ hm, writeTapes_getElem_head]

/-- Witness for C9: a two-tape machine whose only transition carries
one-entry write and move tuples; its second tape survives step unchanged
while the state still advances and the counter still increments. -/
theorem C9_step_zip_truncation_witness :
    (mtmShort.step).2.current_state = "q" ∧
    (mtmShort.step).2.step_count = mtmShort.step_count + 1 ∧
    (mtmShort.step).2.tapes.length = mtmShort.tapes.length ∧
    (mtmShort.step).2.tapes[1]? = mtmShort.tapes[1]? := by
  have h := C9_step_zip_truncation mtmShort "q" ["b"] [(1 : Int)] (by decide)
  exact ⟨h.1, h.2.1, h.2.2.1, h.2.2.2.1 1 (by decide) (by decide)⟩

/-- Claim C10: a reset whose input sequence has the wrong length reports
the configuration error and hands back the machine exactly as it was:
tapes, current_state and step_count all keep their pre-call values (the
source validates before mutating anything). -/
theorem C10_reset_error_atomic (M : Machine) (inputs : List (List String))
    (hlen : inputs.length ≠ M.num_tapes) :
    M.reset (some inputs) =
      (Except.error "initial_inputs debe tener longitud num_tapes.", M) := by
  simp [MultiTapeTuringMachine.reset, hlen]

/-- Witness for C10: a failed reset of the mid-input successor machine
returns the error with the machine untouched. -/
theorem C10_reset_error_atomic_witness :
    mtmSucc.reset (some []) =
      (Except.error "initial_inputs debe tener longitud num_tapes.", mtmSucc) :=
  C10_reset_error_atomic mtmSucc [] (by decide)
